import Mathlib

/-!
Verification of the rainbow-prediction service against its natural-language
specification.  The repository holds three duplicated Go variants: `main.go`,
the unnamed variant `part_000`, and a third variant embedded in
`src/index.html` after the page markup (lines 192-468) — the only variant
with a request cache and with eligibility filters in its scorer.

The Go code is shallowly embedded: floating-point arithmetic is modelled by
exact rational arithmetic (`ℚ`), Go slices by `List`, network effects by
explicit oracles (the network's answer is an argument, the number of HTTP
calls performed is an explicit output), and fallible code — including a
run-time panic — by `Option`/`Except`.  Library collaborators
(`time.Parse`, `strconv.ParseFloat`) are abstracted as parameters, since
they are Go standard-library code and not part of this repository.
-/

/-! ## Arithmetic helpers (kernel-reducible `math.Abs`, `math.Min`, `math.Max`) -/

/-- Embeds Go `math.Abs` (executable form; equal to `|x|`). -/
def qAbs (x : ℚ) : ℚ := if x < 0 then -x else x

/-- Embeds Go `math.Min` (executable form; equal to `min x y`). -/
def qMin (x y : ℚ) : ℚ := if x ≤ y then x else y

/-- Embeds Go `math.Max`-style clamping (executable form; equal to
`max x y`). -/
def qMax (x y : ℚ) : ℚ := if y ≤ x then x else y

/-! ## String helpers (embedding `strings.Contains` / `strings.Split`) -/

/-- `leadsChars sub l` is true when `sub` is an initial block of `l`. -/
def leadsChars : List Char → List Char → Bool
  | [], _ => true
  | _ :: _, [] => false
  | c :: cs, d :: ds => c == d && leadsChars cs ds

/-- `hasChars sub l` is true when `sub` occurs contiguously inside `l`. -/
def hasChars (sub : List Char) : List Char → Bool
  | [] => sub.isEmpty
  | d :: ds => leadsChars sub (d :: ds) || hasChars sub ds

/-- Embeds Go `strings.Contains s sub`. -/
def strHas (s sub : String) : Bool := hasChars sub.toList s.toList

/-- Characters before the first space. -/
def takeUntilSpace : List Char → List Char
  | [] => []
  | c :: cs => if c = ' ' then [] else c :: takeUntilSpace cs

/-- Embeds `strings.Split(s, " ")[0]` — Go's `Split` never returns an empty
slice, so indexing with 0 is total; the first field is exactly the run of
characters before the first space. -/
def firstWord (s : String) : String := ⟨takeUntilSpace s.toList⟩

/-- Character-by-character lowering. -/
def lowerChars : List Char → List Char
  | [] => []
  | c :: cs => c.toLower :: lowerChars cs

/-- Embeds Go `strings.ToLower` (ASCII, which is all the code compares). -/
def strToLower (s : String) : String := ⟨lowerChars s.toList⟩

/-! ## Data model of the part_000 variant (api.weather.gov) -/

/-- The observable part of a parsed Go `time.Time` used by the code:
`Hour()` and `Minute()`. -/
structure GoTime where
  hour : ℤ
  minute : ℤ
deriving DecidableEq, Repr

/-- One forecast period of `ForecastData.Properties.Periods` (part_000
lines 33-43); `PopValue` is `ProbabilityOfPrecipitation.Value`. -/
structure Period where
  StartTime : String
  Temperature : ℚ
  PopValue : ℚ
  ShortForecast : String
  WindSpeed : String
  WindDirection : String
  CloudCover : ℤ
deriving DecidableEq, Repr

/-- The `RainbowPrediction` response of part_000 (lines 47-51).  `Time` is
`Option GoTime`: `none` embeds the zero value `time.Time{}` that the Go
declaration `var bestTime time.Time` starts from. -/
structure RainbowPrediction where
  Likelihood : ℚ
  Location : String
  Time : Option GoTime
deriving DecidableEq, Repr

/-- Embeds `calculateSunAngle` (part_000 lines 218-222): the `location`
argument is ignored by the source too. -/
def calculateSunAngle (t : GoTime) (location : String) : ℚ :=
  90 - qAbs ((t.hour : ℚ) + (t.minute : ℚ) / 60 - 12) * 15

/-- The loop body of `predictRainbow` (part_000 lines 161-208) for a single
period.  `parseTime` embeds `time.Parse(time.RFC3339, ·)` and `parseNum`
embeds `strconv.ParseFloat` (standard-library collaborators, `none` =
parse error).  Result `none` means the period is skipped by `continue`
(timestamp parse failure, or hour outside 6..20); `some (t, s)` means the
period contributes the candidate score `s` at its parsed start time `t`.
Note the source does **not** skip on a wind-speed parse failure: it defaults
the value to `0` and keeps going. -/
def periodCandidate (parseTime : String → Option GoTime)
    (parseNum : String → Option ℚ) (location : String) (p : Period) :
    Option (GoTime × ℚ) :=
  match parseTime p.StartTime with
  | none => none
  | some t =>
    if t.hour < 6 ∨ t.hour > 20 then none
    else
      let precipProb := p.PopValue
      let l0 : ℚ := precipProb * (100 - precipProb) / 2500
      let l1 : ℚ := if p.Temperature ≤ 32 then 0 else l0
      let cloudCoverFactor : ℚ := 1 - qAbs ((p.CloudCover : ℚ) - 50) / 50
      let l2 : ℚ := l1 * cloudCoverFactor
      let windSpeedValue : ℚ := (parseNum (firstWord p.WindSpeed)).getD 0
      let windFactor : ℚ := qMax (1 - qAbs (windSpeedValue - 10) / 10) 0
      let l3 : ℚ := l2 * windFactor
      let l4 : ℚ :=
        if (strHas (strToLower p.ShortForecast) "rain" ∨
            strHas (strToLower p.ShortForecast) "showers") ∧
           (p.WindDirection = "E" ∨ p.WindDirection = "NE" ∨
            p.WindDirection = "SE") then l3 * 1.5 else l3
      let sunAngle := calculateSunAngle t location
      let l5 : ℚ := if 0 ≤ sunAngle ∧ sunAngle ≤ 42 then l4 * 1.5 else l4
      some (t, l5)

/-- The running-maximum update of `predictRainbow` (part_000 lines 205-208):
replace the best pair only on a strictly greater score. -/
def predictStep (parseTime : String → Option GoTime)
    (parseNum : String → Option ℚ) (location : String)
    (best : ℚ × Option GoTime) (p : Period) : ℚ × Option GoTime :=
  match periodCandidate parseTime parseNum location p with
  | none => best
  | some (t, l) => if l > best.1 then (l, some t) else best

/-- Embeds `predictRainbow` (part_000 lines 157-216). -/
def predictRainbow (parseTime : String → Option GoTime)
    (parseNum : String → Option ℚ) (periods : List Period)
    (location : String) : RainbowPrediction :=
  let best := periods.foldl (predictStep parseTime parseNum location) (0, none)
  ⟨best.1, location, best.2⟩

/-! ## Data model of the main.go variant (OpenWeatherMap) -/

/-- `WeatherCondition` (main.go lines 24-27). -/
structure WeatherCondition where
  id : ℤ
  description : String
deriving DecidableEq, Repr

/-- The anonymous weather struct passed to `calculateRainbowLikelihood`
(main.go lines 97-107). -/
structure WeatherFields where
  Temp : ℚ
  Humidity : ℤ
  Weather : List WeatherCondition
  Clouds : ℤ
  UVI : ℚ
  Visibility : ℤ
  WindSpeed : ℚ
  WindDeg : ℤ
  Pop : ℚ
deriving DecidableEq, Repr

/-- Embeds `calculateRainbowLikelihood` (main.go lines 96-137).  The result
is `none` exactly when the Go function panics: inside the rejection branch
the call `log.Debug(..., "weather_id", weather.Weather[0].ID)` evaluates
`weather.Weather[0]` even when the slice is empty, which is an index
out-of-range panic.  (The `headD` in the guard itself is safe: Go's `||`
short-circuits before the indexing subterms are reached.) -/
def calculateRainbowLikelihood (w : WeatherFields) : Option ℚ :=
  if w.Weather.length = 0 ∨ (w.Weather.headD ⟨0, ""⟩).id < 200 ∨
     700 ≤ (w.Weather.headD ⟨0, ""⟩).id then
    match w.Weather with
    | [] => none
    | _ :: _ => some 0
  else
    let cloudFactor : ℚ := 1 - (w.Clouds : ℚ) / 100
    let humidityFactor : ℚ := (w.Humidity : ℚ) / 100
    let uviFactor : ℚ := qMin (w.UVI / 10) 1
    let visibilityFactor : ℚ := qMin ((w.Visibility : ℚ) / 10000) 1
    let windFactor : ℚ := 1 - qMin (w.WindSpeed / 20) 1
    let likelihood : ℚ :=
      (cloudFactor + humidityFactor + uviFactor + visibilityFactor +
        windFactor) / 5
    let id0 := (w.Weather.headD ⟨0, ""⟩).id
    let boosted : ℚ :=
      if 300 ≤ id0 ∧ id0 < 600 then likelihood * 1.5
      else if w.Pop > 0.5 then likelihood * 1.3
      else likelihood
    some (qMin boosted 1)

/-- The `Current` block of `WeatherData` (main.go lines 31-41); it has no
`Pop` field. -/
structure CurrentWeather where
  Dt : ℤ
  Temp : ℚ
  Humidity : ℤ
  Weather : List WeatherCondition
  Clouds : ℤ
  UVI : ℚ
  Visibility : ℤ
  WindSpeed : ℚ
  WindDeg : ℤ
deriving DecidableEq, Repr

/-- The struct literal built in `handleHeatmapData` (main.go lines 256-276):
current data has no `Pop`, so it is set to `0`. -/
def currentToFields (c : CurrentWeather) : WeatherFields :=
  ⟨c.Temp, c.Humidity, c.Weather, c.Clouds, c.UVI, c.Visibility,
    c.WindSpeed, c.WindDeg, 0⟩

/-- `HeatmapData` (main.go lines 64-68). -/
structure HeatmapData where
  lat : ℚ
  lon : ℚ
  likelihood : ℚ
deriving DecidableEq, Repr

/-! ## Weather data clients -/

/-- Embeds `fetchWeatherData` (main.go lines 71-94).  `net` is the network's
answer to the single `http.Get` (transport error, or status code with
body); `decode` embeds the JSON decoder.  The second component is the
number of HTTP requests performed by this invocation: `http.Get` is
executed unconditionally, so it is always `1`.  The function keeps no state
of any kind between invocations. -/
def fetchWeatherData {β α : Type} (net : Except String (ℤ × β))
    (decode : β → Except String α) : Except String α × ℕ :=
  (match net with
   | .error m => .error ("error making request: " ++ m)
   | .ok (status, body) =>
     if status = 200 then
       match decode body with
       | .error m => .error ("error decoding response: " ++ m)
       | .ok d => .ok d
     else .error ("API request failed with status code: " ++ toString status),
   1)

/-- Embeds `fetchJSON` (part_000 lines 79-108).  `mkReq` is the outcome of
`http.NewRequest` (it precedes the network call, so on its failure zero
HTTP requests are made); `net` answers the single `client.Do` with either a
transport error or a status code paired with the outcome of reading the
body; `decode` embeds `json.Unmarshal`.  The second component counts HTTP
requests: one whenever `client.Do` is reached.  No cache is consulted or
written — the function has no state. -/
def fetchJSON {β α : Type} (mkReq : Except String Unit)
    (net : Except String (ℤ × Except String β))
    (decode : β → Except String α) : Except String α × ℕ :=
  match mkReq with
  | .error m => (.error ("error creating request: " ++ m), 0)
  | .ok _ =>
    (match net with
     | .error m => .error ("error fetching JSON: " ++ m)
     | .ok (status, bodyRes) =>
       if status = 200 then
         match bodyRes with
         | .error m => .error ("error reading response body: " ++ m)
         | .ok body =>
           match decode body with
           | .error m => .error ("error unmarshalling JSON: " ++ m)
           | .ok v => .ok v
       else .error ("unexpected status code: " ++ toString status),
     1)

/-- The loop of `fetchJSONWithRetry` (part_000 lines 66-77).  Arguments:
`attempt i` is the outcome of the `fetchJSON` call at loop index `i`,
`i` the current index, `remaining` the attempts left, `lastErr` the error
of the previous attempt (`var err error`).  Returns the result, the number
of `fetchJSON` calls made, and the list of sleep durations (in seconds)
performed, in order: after the failed attempt at index `i` the code sleeps
`i+1` seconds. -/
def retryLoop {α : Type} (attempt : ℕ → Except String α) :
    ℕ → ℕ → Option String → Except String α × ℕ × List ℕ
  | _, 0, lastErr =>
    (.error ("max retries reached: " ++ lastErr.getD ""), 0, [])
  | i, remaining + 1, _ =>
    match attempt i with
    | .ok v => (.ok v, 1, [])
    | .error m =>
      let r := retryLoop attempt (i + 1) remaining (some m)
      (r.1, r.2.1 + 1, (i + 1) :: r.2.2)

/-- Embeds `fetchJSONWithRetry` (part_000 lines 66-77); the call site
(`fetchForecast`, line 150) passes `maxRetries = 3`. -/
def fetchJSONWithRetry {α : Type} (attempt : ℕ → Except String α)
    (maxRetries : ℕ) : Except String α × ℕ × List ℕ :=
  retryLoop attempt 0 maxRetries none

/-! ## Heatmap generator (main.go `handleHeatmapData`) -/

/-- The resolution defaulting of `handleHeatmapData` (main.go lines
231-234): `parsed` is the outcome of `strconv.ParseFloat` on the
`resolution` query parameter, `none` meaning missing or unparseable.  Only
a parse error triggers the default; a successfully parsed value is used
as-is. -/
def effectiveResolution (parsed : Option ℚ) : ℚ := parsed.getD 0.05

/-- Fuel-indexed embedding of the Go loop
`for v := -r; v <= r; v += res { ... }` over the values taken by `v`.
The fuel is only a termination device; `gridFuel` below always supplies
enough of it when `0 < res` (the only case in which the Go loop
terminates). -/
def loopValsF : ℕ → ℚ → ℚ → ℚ → List ℚ
  | 0, _, _, _ => []
  | n + 1, r, res, v =>
    if v ≤ r then v :: loopValsF n r res (v + res) else []

/-- Enough fuel to run the grid loop from `-r` to `r` in steps of `res`. -/
def gridFuel (r res : ℚ) : ℕ := (⌊2 * r / res⌋ + 2).toNat

/-- The values taken by one loop variable of the heatmap grid loops
(main.go lines 243-244): `-r, -r + res, -r + 2·res, …` while `≤ r`. -/
def gridSteps (r res : ℚ) : List ℚ :=
  loopValsF (gridFuel r res) r res (-r)

/-- The offsets kept by the circular mask (main.go lines 243-249), in
enumeration order.  The source guard is
`math.Sqrt(dlat*dlat+dlon*dlon) <= radiusDegrees`; over the reachable
states (`radiusDegrees ≥ 0`, otherwise the loops run zero times) this is
exactly `dlat² + dlon² ≤ radiusDegrees²`, which is the executable form
used here. -/
def gridOffsets (radiusDegrees res : ℚ) : List (ℚ × ℚ) :=
  (gridSteps radiusDegrees res).flatMap fun dlat =>
    (gridSteps radiusDegrees res).filterMap fun dlon =>
      if dlat * dlat + dlon * dlon ≤ radiusDegrees * radiusDegrees then
        some (dlat, dlon)
      else none

/-- One iteration of the heatmap point loop (main.go lines 250-282):
a failed fetch is logged and skipped (`continue`), a successful fetch is
scored and appended; a panic inside the scorer (`none`) aborts the whole
request, which the accumulator propagates. -/
def heatmapStep (lat lon : ℚ) (fetch : ℚ → ℚ → Option CurrentWeather)
    (acc : Option (List HeatmapData)) (d : ℚ × ℚ) :
    Option (List HeatmapData) :=
  match acc with
  | none => none
  | some pts =>
    match fetch (lat + d.1) (lon + d.2) with
    | none => some pts
    | some wd =>
      match calculateRainbowLikelihood (currentToFields wd) with
      | none => none
      | some l => some (pts ++ [⟨lat + d.1, lon + d.2, l⟩])

/-- Embeds the grid-sampling core of `handleHeatmapData` (main.go lines
231-284): radius is converted to degrees by `radius / 69`, the square of
offsets is enumerated in steps of the effective resolution, the circular
mask is applied, and each kept offset is fetched (`fetch x y = none` embeds
a `fetchWeatherData` failure at that point) and scored.  The result is
`none` only if the scorer panics. -/
def handleHeatmapPoints (lat lon radius : ℚ) (resolutionParam : Option ℚ)
    (fetch : ℚ → ℚ → Option CurrentWeather) : Option (List HeatmapData) :=
  let resolution := effectiveResolution resolutionParam
  let radiusDegrees := radius / 69
  (gridOffsets radiusDegrees resolution).foldl (heatmapStep lat lon fetch)
    (some [])

/-- The per-offset outcome of the heatmap loop body in the panic-free case:
`none` when the fetch at that offset fails (the point is skipped and
logged), `some pt` the emitted `HeatmapData` otherwise. -/
def heatmapPoint (lat lon : ℚ) (fetch : ℚ → ℚ → Option CurrentWeather)
    (d : ℚ × ℚ) : Option HeatmapData :=
  (fetch (lat + d.1) (lon + d.2)).bind fun wd =>
    (calculateRainbowLikelihood (currentToFields wd)).map fun l =>
      ⟨lat + d.1, lon + d.2, l⟩

/-- A concrete table-driven stand-in for `time.Parse(time.RFC3339, ·)`,
used only to evaluate the embedding on closed inputs. -/
def demoParseTime : String → Option GoTime := fun s =>
  if s = "T12" then some ⟨12, 0⟩
  else if s = "T13" then some ⟨13, 0⟩
  else if s = "T16" then some ⟨16, 0⟩
  else none

/-- A concrete stand-in for `strconv.ParseFloat` that only accepts the
string "10"; every other wind-speed token is a parse failure. -/
def demoParseNum : String → Option ℚ := fun s =>
  if s = "10" then some 10 else none

/-- A concrete, well-formed current-weather sample (non-empty condition
list) used to evaluate the heatmap handler on closed inputs. -/
def demoWeather : CurrentWeather :=
  ⟨0, 20, 50, [⟨500, "rain"⟩], 50, 5, 10000, 5, 90⟩

/-! ## Data model of the variant embedded in src/index.html -/

/-- The observable part of a parsed `time.Time` used by the embedded
variant: `Hour()`, `Minute()` and `Month()` (months as 1..12, so
`time.April` = 4 and `time.September` = 9). -/
structure GoTimeM where
  hour : ℤ
  minute : ℤ
  month : ℤ
deriving DecidableEq, Repr

/-- Embeds `calculateSunAngle` of the embedded variant (index.html lines
350-354); the `lat`/`lon` arguments are ignored by the source too. -/
def calculateSunAngleIdx (t : GoTimeM) (lat lon : ℚ) : ℚ :=
  90 - qAbs ((t.hour : ℚ) + (t.minute : ℚ) / 60 - 12) * 15

/-- The loop body of the embedded variant's `predictRainbow` (index.html
lines 360-407) for a single period.  `none` embeds `continue`: a period is
skipped on a timestamp parse failure, a sun angle outside [0, 42], cloud
cover above 96, or absence of liquid precipitation (probability ≤ 0 or
temperature ≤ 32) — the eligibility filters; it contributes no candidate
at all.  A surviving period contributes `some (t, score)`. -/
def periodCandidateIdx (parseTime : String → Option GoTimeM)
    (lat lon : ℚ) (p : Period) : Option (GoTimeM × ℚ) :=
  match parseTime p.StartTime with
  | none => none
  | some t =>
    let sunAngle := calculateSunAngleIdx t lat lon
    if sunAngle < 0 ∨ sunAngle > 42 then none
    else if p.CloudCover > 96 then none
    else if ¬(p.PopValue > 0 ∧ p.Temperature > 32) then none
    else
      let l1 : ℚ := 1 * ((100 - (p.CloudCover : ℚ)) / 100)
      let l2 : ℚ := l1 * (p.PopValue / 100)
      let angleFactor : ℚ := 1 - qAbs (sunAngle - 21) / 21
      let l3 : ℚ := l2 * angleFactor
      let l4 : ℚ := if 16 ≤ t.hour ∧ t.hour ≤ 22 then l3 * 1.5 else l3
      let l5 : ℚ := if 4 ≤ t.month ∧ t.month ≤ 9 then l4 * 1.2 else l4
      some (t, l5)

/-- Embeds the embedded variant's `predictRainbow` fold (index.html lines
356-414): strict greater-than running maximum from (0, zero time); the
`Location` string formatting of `lat, lon` is pure formatting and elided. -/
def predictRainbowIdx (parseTime : String → Option GoTimeM)
    (lat lon : ℚ) (periods : List Period) : ℚ × Option GoTimeM :=
  periods.foldl
    (fun best p =>
      match periodCandidateIdx parseTime lat lon p with
      | none => best
      | some (t, l) => if l > best.1 then (l, some t) else best)
    (0, none)

/-- A concrete stand-in for `time.Parse` producing the embedded variant's
time view (hour, minute, month). -/
def demoParseTimeM : String → Option GoTimeM := fun s =>
  if s = "T12" then some ⟨12, 0, 6⟩ else none

/-- `CacheEntry` of the embedded variant (index.html lines 244-247): the
stored payload and its expiry instant (modelled in seconds).  Go declares
`Data` as `interface{}` and stores the caller's `target` pointer; the only
reader of `Data` is the cache-hit path, so the pointed-to decoded value is
stored here. -/
structure CacheEntry (α : Type) where
  Data : α
  ExpiresAt : ℤ
deriving DecidableEq

/-- The network path of the embedded variant's caching `fetchJSON`
(index.html lines 286-320), reached on a cache miss or an expired entry:
identical to part_000's `fetchJSON` except that a successful decode also
inserts (or overwrites) the URL's cache entry with a fresh 15-minute
(900-second) TTL.  The `sync.RWMutex` discipline around the map is elided
by the sequential state-passing semantics. -/
def fetchJSONCachedNet {β α : Type} (url : String)
    (cache : String → Option (CacheEntry α)) (now : ℤ)
    (mkReq : Except String Unit)
    (net : Except String (ℤ × Except String β))
    (decode : β → Except String α) :
    Option (Except String α) × (String → Option (CacheEntry α)) × ℕ :=
  match mkReq with
  | .error m => (some (.error ("error creating request: " ++ m)), cache, 0)
  | .ok _ =>
    match net with
    | .error m => (some (.error ("error fetching JSON: " ++ m)), cache, 1)
    | .ok (status, bodyRes) =>
      if status = 200 then
        match bodyRes with
        | .error m =>
          (some (.error ("error reading response body: " ++ m)), cache, 1)
        | .ok body =>
          match decode body with
          | .error m =>
            (some (.error ("error unmarshalling JSON: " ++ m)), cache, 1)
          | .ok v =>
            (some (.ok v),
              fun u => if u = url then some ⟨v, now + 15 * 60⟩ else cache u,
              1)
      else (some (.error ("unexpected status code: " ++ toString status)),
        cache, 1)

/-- Embeds the caching `fetchJSON` of the embedded variant (index.html
lines 277-321).  State passing: `cache` maps a URL to its entry and `now`
embeds `time.Now()` (seconds); the triple returned is (result, new cache,
network calls), with result `none` embedding a panic.  On an unexpired hit
the code runs `*target.(*interface{}) = entry.Data` before any network
access: `targetIsIfacePtr` records whether the caller's `target` has
dynamic type `*interface{}` — both real call sites (`fetchPointMetadata`
and `fetchForecast`, via `fetchJSONWithRetry`) pass `*PointMetadata` /
`*ForecastData`, so for every reachable call it is `false` and the type
assertion panics.  Expired entries fall through to the network path. -/
def fetchJSONCached {β α : Type} (url : String)
    (cache : String → Option (CacheEntry α)) (now : ℤ)
    (targetIsIfacePtr : Bool) (mkReq : Except String Unit)
    (net : Except String (ℤ × Except String β))
    (decode : β → Except String α) :
    Option (Except String α) × (String → Option (CacheEntry α)) × ℕ :=
  match cache url with
  | some entry =>
    if now < entry.ExpiresAt then
      if targetIsIfacePtr then (some (.ok entry.Data), cache, 0)
      else (none, cache, 0)
    else fetchJSONCachedNet url cache now mkReq net decode
  | none => fetchJSONCachedNet url cache now mkReq net decode

/-! ## Helper lemmas about the predictor's running-maximum fold -/

theorem predictStep_of_none (pt : String → Option GoTime)
    (pn : String → Option ℚ) (loc : String) (b : ℚ × Option GoTime)
    (p : Period) (h : periodCandidate pt pn loc p = none) :
    predictStep pt pn loc b p = b := by
  unfold predictStep
  rw [h]

theorem predictStep_of_le (pt : String → Option GoTime)
    (pn : String → Option ℚ) (loc : String) (b : ℚ × Option GoTime)
    (p : Period) (t : GoTime) (s : ℚ)
    (h : periodCandidate pt pn loc p = some (t, s)) (hs : s ≤ b.1) :
    predictStep pt pn loc b p = b := by
  unfold predictStep
  rw [h]
  simp [not_lt.mpr hs]

theorem predictStep_of_gt (pt : String → Option GoTime)
    (pn : String → Option ℚ) (loc : String) (b : ℚ × Option GoTime)
    (p : Period) (t : GoTime) (s : ℚ)
    (h : periodCandidate pt pn loc p = some (t, s)) (hs : b.1 < s) :
    predictStep pt pn loc b p = (s, some t) := by
  unfold predictStep
  rw [h]
  show (if s > b.1 then (s, some t) else b) = (s, some t)
  rw [if_pos hs]

theorem foldl_predictStep_fix (pt : String → Option GoTime)
    (pn : String → Option ℚ) (loc : String) :
    ∀ (l : List Period) (b : ℚ × Option GoTime),
      (∀ q ∈ l, ∀ u s, periodCandidate pt pn loc q = some (u, s) → s ≤ b.1) →
      l.foldl (predictStep pt pn loc) b = b := by
  intro l
  induction l with
  | nil => intro b _; rfl
  | cons q l ih =>
    intro b hb
    have hstep : predictStep pt pn loc b q = b := by
      cases hq : periodCandidate pt pn loc q with
      | none => exact predictStep_of_none pt pn loc b q hq
      | some c =>
        exact predictStep_of_le pt pn loc b q c.1 c.2 (by rw [hq])
          (hb q (List.mem_cons_self q l) c.1 c.2 (by rw [hq]))
    rw [List.foldl_cons, hstep]
    exact ih b (fun q' hq' => hb q' (List.mem_cons_of_mem q hq'))

theorem foldl_predictStep_nonneg (pt : String → Option GoTime)
    (pn : String → Option ℚ) (loc : String) :
    ∀ (l : List Period) (b : ℚ × Option GoTime), 0 ≤ b.1 →
      0 ≤ (l.foldl (predictStep pt pn loc) b).1 := by
  intro l
  induction l with
  | nil => intro b hb; exact hb
  | cons q l ih =>
    intro b hb
    rw [List.foldl_cons]
    apply ih
    unfold predictStep
    cases hq : periodCandidate pt pn loc q with
    | none => exact hb
    | some c =>
      by_cases hgt : c.2 > b.1
      · simp only [hgt, if_pos]
        exact le_of_lt (lt_of_le_of_lt hb hgt)
      · simp only [hgt, if_neg, not_false_eq_true]
        exact hb

theorem foldl_predictStep_lt (pt : String → Option GoTime)
    (pn : String → Option ℚ) (loc : String) (M : ℚ) :
    ∀ (l : List Period) (b : ℚ × Option GoTime), b.1 < M →
      (∀ q ∈ l, ∀ u s, periodCandidate pt pn loc q = some (u, s) → s < M) →
      (l.foldl (predictStep pt pn loc) b).1 < M := by
  intro l
  induction l with
  | nil => intro b hb _; exact hb
  | cons q l ih =>
    intro b hb hl
    rw [List.foldl_cons]
    apply ih
    · unfold predictStep
      cases hq : periodCandidate pt pn loc q with
      | none => exact hb
      | some c =>
        by_cases hgt : c.2 > b.1
        · simp only [hgt, if_pos]
          exact hl q (List.mem_cons_self q l) c.1 c.2 (by rw [hq])
        · simp only [hgt, if_neg, not_false_eq_true]
          exact hb
    · exact fun q' hq' => hl q' (List.mem_cons_of_mem q hq')

/-! ## Claim C1: request caching with a 15-minute TTL -/

/-- The clients of the two non-caching variants are stateless: a repeat of
an identical, just-answered request is simply a second invocation of
`fetchWeatherData`, and it performs one `http.Get`, not zero. -/
theorem fetchWeatherData_single_call_networks :
    (fetchWeatherData (Except.ok (200, 42))
        (fun b => (Except.ok b : Except String ℕ))).1 = Except.ok 42 ∧
    (fetchWeatherData (Except.ok (200, 42))
        (fun b => (Except.ok b : Except String ℕ))).2 = 1 ∧
    (1 : ℕ) ≠ 0 :=
  ⟨rfl, rfl, by decide⟩

/-- The clients cited by the cache claim keep no state: every invocation
of main.go's `fetchWeatherData` performs exactly one network call, and so
does every invocation of part_000's `fetchJSON` whose request construction
succeeds, regardless of any earlier identical request or of elapsed time;
those two variants never store a response. -/
theorem cited_clients_always_network {β α : Type}
    (net : Except String (ℤ × β)) (decode : β → Except String α)
    (net2 : Except String (ℤ × Except String β))
    (decode2 : β → Except String α) :
    (fetchWeatherData net decode).2 = 1 ∧
    (fetchJSON (Except.ok ()) net2 decode2).2 = 1 :=
  ⟨rfl, rfl⟩

/-- C1: the one cache in the repository lives in the variant embedded in
src/index.html.  Its `fetchJSON` looks the exact URL up before any network
access and a successful response inserts an entry with a fresh 15-minute
TTL — exactly as the claim says.  But a cache hit panics instead of
returning the cached payload: the hit path runs
`*target.(*interface{}) = entry.Data`, and both real call sites pass
`*PointMetadata` / `*ForecastData`, never `*interface{}`.  Trace below:
a first request for URL "u" at t = 0 makes one network call, returns the
payload and caches it to expire at 900 s; the identical request at
t = 600 s makes zero network calls and panics (`none`); at t = 1000 s the
entry is expired and one fresh network call is made.  (The other two
variants' clients have no cache at all: `cited_clients_always_network`.) -/
theorem C1_cache_hit_panics :
    (fetchJSONCached "u" (fun _ => none) 0 false (Except.ok ())
        (Except.ok (200, Except.ok 42))
        (fun b => (Except.ok b : Except String ℕ))).1 =
      some (Except.ok 42) ∧
    (fetchJSONCached "u" (fun _ => none) 0 false (Except.ok ())
        (Except.ok (200, Except.ok 42))
        (fun b => (Except.ok b : Except String ℕ))).2.2 = 1 ∧
    (fetchJSONCached "u" (fun _ => none) 0 false (Except.ok ())
        (Except.ok (200, Except.ok 42))
        (fun b => (Except.ok b : Except String ℕ))).2.1 "u" =
      some ⟨42, 900⟩ ∧
    (fetchJSONCached "u" (fun u => if u = "u" then some ⟨42, 900⟩ else none)
        600 false (Except.ok ()) (Except.ok (200, Except.ok 42))
        (fun b => (Except.ok b : Except String ℕ))).1 = none ∧
    (fetchJSONCached "u" (fun u => if u = "u" then some ⟨42, 900⟩ else none)
        600 false (Except.ok ()) (Except.ok (200, Except.ok 42))
        (fun b => (Except.ok b : Except String ℕ))).2.2 = 0 ∧
    (fetchJSONCached "u" (fun u => if u = "u" then some ⟨42, 900⟩ else none)
        1000 false (Except.ok ()) (Except.ok (200, Except.ok 42))
        (fun b => (Except.ok b : Except String ℕ))).2.2 = 1 :=
  ⟨rfl, by decide, by decide, rfl, by decide, by decide⟩

/-! ## Claim C9: heatmap resolution defaulting -/

/-- C9, counterexample.  The claim states that non-positive parsed values
(which would not advance the grid step) also fall back to the default
resolution 0.05.  They do not: `strconv.ParseFloat` succeeds on "0", the
parse-error branch is not taken, and the grid step is 0. -/
theorem C9_counterexample_zero_resolution :
    effectiveResolution (some 0) = 0 ∧ (0 : ℚ) ≠ 0.05 :=
  ⟨rfl, by norm_num⟩

/-- C9, amended: the default resolution 0.05 is used exactly when the
resolution parameter is missing or unparseable (`strconv.ParseFloat`
fails); every successfully parsed value — including 0 and negative
values — is used as-is. -/
theorem C9_amended_default_on_parse_failure_only :
    effectiveResolution none = 0.05 ∧
    ∀ v : ℚ, effectiveResolution (some v) = v :=
  ⟨rfl, fun _ => rfl⟩

/-! ## Claim C10: totality of the likelihood scorer -/

/-- C10: the claim says `calculateRainbowLikelihood` returns 0 on the
rejection branch without any out-of-bounds access, even for an empty
condition list.  The guard `len(weather.Weather) == 0` short-circuits, but
the `log.Debug` call inside that very branch evaluates
`weather.Weather[0].ID`, which panics on the empty slice (embedded as
`none`).  With a non-empty list the same branch does return 0. -/
theorem C10_empty_conditions_panic :
    calculateRainbowLikelihood ⟨20, 50, [], 50, 5, 10000, 5, 90, 0⟩ = none ∧
    calculateRainbowLikelihood
      ⟨20, 50, [⟨100, "clear sky"⟩], 50, 5, 10000, 5, 90, 0⟩ = some 0 :=
  ⟨by decide, by decide⟩

/-! ## Claim C2, counterexample -/

unseal Nat.gcd Rat.mul Rat.add Rat.sub Rat.inv Rat.ofScientific in
/-- C2, counterexample.  The claim states that every likelihood handed to a
caller is clamped into [0, 1].  The part_000 predictor applies no clamp:
a period with precipitation probability 50, temperature 50, cloud cover
50, wind "10 mph", an easterly wind with rain in the forecast text, and a
start time of 16:00 (sun angle 30, inside the bonus band) scores
1 · 1 · 1 · 1.5 · 1.5 = 9/4 > 1, which is returned as the prediction's
likelihood. -/
theorem C2_counterexample_predictor_unclamped :
    (predictRainbow demoParseTime demoParseNum
        [⟨"T16", 50, 50, "rain showers", "10 mph", "E", 50⟩]
        "39.5, -105.0").Likelihood = 9 / 4 ∧
    ¬((9 : ℚ) / 4 ≤ 1) :=
  ⟨by decide, by norm_num⟩

/-! ## Claim C4, counterexample -/

unseal Nat.gcd Rat.mul Rat.add Rat.sub Rat.inv Rat.ofScientific in
/-- C4, counterexample.  The claim states that cloud cover above 96% or a
sun angle outside [0°, 42°] forces a score of exactly 0.  Neither filter
exists: a period with cloud cover 97 at 12:00 (sun angle 90, outside the
band) scores 3/50 ≠ 0 — cloud cover only enters through the triangular
factor 1 − |c − 50|/50 and the sun-angle band only gates a ×1.5 bonus. -/
theorem C4_counterexample_no_eligibility_filters :
    ((96 : ℤ) < 97) ∧
    ¬(0 ≤ calculateSunAngle ⟨12, 0⟩ "39.5, -105.0" ∧
        calculateSunAngle ⟨12, 0⟩ "39.5, -105.0" ≤ 42) ∧
    periodCandidate demoParseTime demoParseNum "39.5, -105.0"
      ⟨"T12", 50, 50, "sunny", "10 mph", "N", 97⟩ = some (⟨12, 0⟩, 3 / 50) ∧
    (3 : ℚ) / 50 ≠ 0 :=
  ⟨by norm_num, by decide, by decide, by norm_num⟩

/-! ## Claim C5, counterexample -/

unseal Nat.gcd Rat.mul Rat.add Rat.sub Rat.inv Rat.ofScientific in
/-- C5, counterexample.  The claim states that whenever two or more periods
attain the same maximal score the predictor returns the chronologically
earliest such period.  When the shared maximal score is 0 (here: two
freezing periods at 12:00 and 13:00), the strict `>` comparison never
fires, and the returned time is the zero value (`none`), not the earliest
period's parsed time. -/
theorem C5_counterexample_zero_max_returns_zero_time :
    periodCandidate demoParseTime demoParseNum "loc"
      ⟨"T12", 30, 50, "sunny", "10 mph", "N", 50⟩ = some (⟨12, 0⟩, 0) ∧
    periodCandidate demoParseTime demoParseNum "loc"
      ⟨"T13", 30, 50, "sunny", "10 mph", "N", 50⟩ = some (⟨13, 0⟩, 0) ∧
    predictRainbow demoParseTime demoParseNum
      [⟨"T12", 30, 50, "sunny", "10 mph", "N", 50⟩,
       ⟨"T13", 30, 50, "sunny", "10 mph", "N", 50⟩] "loc" =
      ⟨0, "loc", none⟩ ∧
    (none : Option GoTime) ≠ some ⟨12, 0⟩ :=
  ⟨by decide, by decide, by decide, by decide⟩

/-! ## Claim C8, counterexample -/

unseal Nat.gcd Rat.mul Rat.add Rat.sub Rat.inv Rat.ofScientific in
/-- C8, counterexample.  The claim states a malformed numeric field (such
as the wind speed) makes the predictor skip that period entirely, so that
it contributes no candidate score.  It does not: on a wind-speed parse
failure the value is defaulted to 0 and the period still contributes a
candidate — `some (t, 0)`, not `none` — whose score is 0 because the wind
factor 1 − |0 − 10|/10 degenerates to 0. -/
theorem C8_counterexample_bad_wind_not_skipped :
    demoParseNum (firstWord "gusty wind") = none ∧
    periodCandidate demoParseTime demoParseNum "loc"
      ⟨"T12", 50, 50, "sunny", "gusty wind", "N", 50⟩ = some (⟨12, 0⟩, 0) ∧
    periodCandidate demoParseTime demoParseNum "loc"
      ⟨"T12", 50, 50, "sunny", "gusty wind", "N", 50⟩ ≠ none :=
  ⟨by decide, by decide, by decide⟩

/-! ## Claim C3: retry policy of fetchJSONWithRetry -/

theorem retryLoop_zero {α : Type} (attempt : ℕ → Except String α) (i : ℕ)
    (last : Option String) :
    retryLoop attempt i 0 last =
      (.error ("max retries reached: " ++ last.getD ""), 0, []) := rfl

theorem retryLoop_succ {α : Type} (attempt : ℕ → Except String α)
    (i rem : ℕ) (last : Option String) :
    retryLoop attempt i (rem + 1) last =
      match attempt i with
      | .ok v => (.ok v, 1, [])
      | .error m =>
        let r := retryLoop attempt (i + 1) rem (some m)
        (r.1, r.2.1 + 1, (i + 1) :: r.2.2) := rfl

theorem retryLoop_calls_le {α : Type} (attempt : ℕ → Except String α) :
    ∀ (rem i : ℕ) (last : Option String),
      (retryLoop attempt i rem last).2.1 ≤ rem := by
  intro rem
  induction rem with
  | zero => intro i last; exact le_refl 0
  | succ rem ih =>
    intro i last
    rw [retryLoop_succ]
    cases h : attempt i with
    | ok v => simp
    | error m =>
      simpa using Nat.succ_le_succ (ih (i + 1) (some m))

/-- C3: for every attempt oracle (one entry per `fetchJSON` call), the
retry wrapper called with `maxRetries = 3` performs at most 3 fetches;
if the first `k` attempts fail and attempt `k` succeeds it returns that
success after `k+1` fetches, having slept `1, …, k` seconds (`i` seconds
after failed attempt `i`); and if all 3 attempts fail it returns the
aggregated error `"max retries reached: "` wrapping the last underlying
error, after 3 fetches and sleeps `1, 2, 3`. -/
theorem C3_retry_policy {α : Type} (attempt : ℕ → Except String α) :
    (fetchJSONWithRetry attempt 3).2.1 ≤ 3 ∧
    (∀ v k, k < 3 → (∀ j, j < k → ∃ m, attempt j = .error m) →
      attempt k = .ok v →
      fetchJSONWithRetry attempt 3 =
        (.ok v, k + 1, (List.range k).map (· + 1))) ∧
    (∀ m0 m1 m2, attempt 0 = .error m0 → attempt 1 = .error m1 →
      attempt 2 = .error m2 →
      fetchJSONWithRetry attempt 3 =
        (.error ("max retries reached: " ++ m2), 3, [1, 2, 3])) := by
  refine ⟨retryLoop_calls_le attempt 3 0 none, ?_, ?_⟩
  · intro v k hk hbefore hok
    interval_cases k
    · unfold fetchJSONWithRetry
      rw [show (3 : ℕ) = 2 + 1 from rfl, retryLoop_succ, hok]
      simp
    · obtain ⟨m0, h0⟩ := hbefore 0 (by norm_num)
      unfold fetchJSONWithRetry
      rw [show (3 : ℕ) = 2 + 1 from rfl, retryLoop_succ, h0]
      simp only []
      rw [show (2 : ℕ) = 1 + 1 from rfl, retryLoop_succ, hok]
      simp [List.range_succ]
    · obtain ⟨m0, h0⟩ := hbefore 0 (by norm_num)
      obtain ⟨m1, h1⟩ := hbefore 1 (by norm_num)
      unfold fetchJSONWithRetry
      rw [show (3 : ℕ) = 2 + 1 from rfl, retryLoop_succ, h0]
      simp only []
      rw [show (2 : ℕ) = 1 + 1 from rfl, retryLoop_succ, h1]
      simp only []
      rw [show (1 : ℕ) = 0 + 1 from rfl, retryLoop_succ, hok]
      simp [List.range_succ]
  · intro m0 m1 m2 h0 h1 h2
    unfold fetchJSONWithRetry
    rw [show (3 : ℕ) = 2 + 1 from rfl, retryLoop_succ, h0]
    simp only []
    rw [show (2 : ℕ) = 1 + 1 from rfl, retryLoop_succ, h1]
    simp only []
    rw [show (1 : ℕ) = 0 + 1 from rfl, retryLoop_succ, h2]
    simp [retryLoop_zero]

/-- C3, witness: a concrete oracle failing on attempts 0 and 1 and
succeeding on attempt 2 returns that success after 3 fetches with sleeps
`[1, 2]`, instantiating the general retry theorem. -/
theorem C3_retry_policy_witness :
    ((2 : ℕ) < 3) ∧
    (∀ j, j < 2 →
      ∃ m, (fun i => if i = 2 then Except.ok 7 else Except.error "boom") j =
        Except.error m) ∧
    ((fun i => if i = 2 then Except.ok 7 else Except.error "boom") 2 =
      Except.ok 7) ∧
    fetchJSONWithRetry
        (fun i => if i = 2 then Except.ok 7 else Except.error "boom") 3 =
      (Except.ok 7, 3, [1, 2]) := by
  refine ⟨by norm_num, ?_, rfl, ?_⟩
  · intro j hj
    have hne : j ≠ 2 := by omega
    exact ⟨"boom", by simp [hne]⟩
  · have := (C3_retry_policy
      (fun i => if i = 2 then Except.ok 7 else Except.error "boom")).2.1 7 2
      (by norm_num)
      (fun j hj => ⟨"boom", by
        have hne2 : j ≠ 2 := by omega
        simp [hne2]⟩)
      rfl
    simpa using this

/-! ## Claim C5, amended theorem -/

/-- C5, amended: the running maximum is only replaced on a strictly
greater score, so provided the maximal candidate score `M` is strictly
positive, the predictor returns the `(time, likelihood)` pair of the
chronologically earliest period attaining `M` — later periods with equal
(or lower) scores never overwrite it.  If every candidate score is ≤ 0
the zero prediction (likelihood 0, zero time) is returned instead. -/
theorem C5_amended_strict_max_keeps_earliest (pt : String → Option GoTime)
    (pn : String → Option ℚ) (loc : String) :
    (∀ (l₁ l₂ : List Period) (p : Period) (t : GoTime) (M : ℚ),
      0 < M → periodCandidate pt pn loc p = some (t, M) →
      (∀ q ∈ l₁, ∀ u s, periodCandidate pt pn loc q = some (u, s) → s < M) →
      (∀ q ∈ l₂, ∀ u s, periodCandidate pt pn loc q = some (u, s) → s ≤ M) →
      predictRainbow pt pn (l₁ ++ p :: l₂) loc = ⟨M, loc, some t⟩) ∧
    (∀ l : List Period,
      (∀ q ∈ l, ∀ u s, periodCandidate pt pn loc q = some (u, s) → s ≤ 0) →
      predictRainbow pt pn l loc = ⟨0, loc, none⟩) := by
  constructor
  · intro l₁ l₂ p t M hM hp h1 h2
    unfold predictRainbow
    rw [List.foldl_append, List.foldl_cons]
    have hb1 : (l₁.foldl (predictStep pt pn loc) (0, none)).1 < M :=
      foldl_predictStep_lt pt pn loc M l₁ (0, none) hM h1
    have hstep :
        predictStep pt pn loc (l₁.foldl (predictStep pt pn loc) (0, none))
          p = (M, some t) :=
      predictStep_of_gt pt pn loc _ p t M hp hb1
    rw [hstep,
      foldl_predictStep_fix pt pn loc l₂ (M, some t)
        (fun q hq u s hqs => h2 q hq u s hqs)]
  · intro l hl
    unfold predictRainbow
    rw [foldl_predictStep_fix pt pn loc l (0, none)
      (fun q hq u s hqs => hl q hq u s hqs)]

unseal Nat.gcd Rat.mul Rat.add Rat.sub Rat.inv Rat.ofScientific in
/-- C5, witness: with a lower-scoring period (score 9/25) first, then two
periods both attaining the maximal score 1 at 12:00 and 13:00, the
prediction keeps the earliest maximal period's parsed time 12:00. -/
theorem C5_amended_witness :
    (0 : ℚ) < 1 ∧
    periodCandidate demoParseTime demoParseNum "loc"
      ⟨"T12", 50, 50, "sunny", "10 mph", "N", 50⟩ = some (⟨12, 0⟩, 1) ∧
    (∀ q ∈ [(⟨"T12", 50, 10, "sunny", "10 mph", "N", 50⟩ : Period)],
      ∀ u s, periodCandidate demoParseTime demoParseNum "loc" q =
        some (u, s) → s < 1) ∧
    (∀ q ∈ [(⟨"T13", 50, 50, "sunny", "10 mph", "N", 50⟩ : Period)],
      ∀ u s, periodCandidate demoParseTime demoParseNum "loc" q =
        some (u, s) → s ≤ 1) ∧
    predictRainbow demoParseTime demoParseNum
        ([⟨"T12", 50, 10, "sunny", "10 mph", "N", 50⟩] ++
          (⟨"T12", 50, 50, "sunny", "10 mph", "N", 50⟩ : Period) ::
            [⟨"T13", 50, 50, "sunny", "10 mph", "N", 50⟩]) "loc" =
      ⟨1, "loc", some ⟨12, 0⟩⟩ := by
  have hlow : periodCandidate demoParseTime demoParseNum "loc"
      ⟨"T12", 50, 10, "sunny", "10 mph", "N", 50⟩ =
      some (⟨12, 0⟩, 9 / 25) := by decide
  have hdup : periodCandidate demoParseTime demoParseNum "loc"
      ⟨"T13", 50, 50, "sunny", "10 mph", "N", 50⟩ =
      some (⟨13, 0⟩, 1) := by decide
  have h1 : ∀ q ∈ [(⟨"T12", 50, 10, "sunny", "10 mph", "N", 50⟩ : Period)],
      ∀ u s, periodCandidate demoParseTime demoParseNum "loc" q =
        some (u, s) → s < 1 := by
    intro q hq u s hqs
    rw [List.mem_singleton.mp hq, hlow] at hqs
    injection hqs with h
    injection h with h1 h2
    rw [← h2]
    norm_num
  have h2 : ∀ q ∈ [(⟨"T13", 50, 50, "sunny", "10 mph", "N", 50⟩ : Period)],
      ∀ u s, periodCandidate demoParseTime demoParseNum "loc" q =
        some (u, s) → s ≤ 1 := by
    intro q hq u s hqs
    rw [List.mem_singleton.mp hq, hdup] at hqs
    injection hqs with h
    injection h with h1 h2
    rw [← h2]
  refine ⟨by norm_num, by decide, h1, h2, ?_⟩
  exact (C5_amended_strict_max_keeps_earliest demoParseTime demoParseNum
    "loc").1 _ _ _ _ 1 (by norm_num) (by decide) h1 h2

/-! ## Claim C8, amended theorem -/

/-- C8, amended: a malformed timestamp does skip the period before it
contributes any candidate, but a malformed wind speed does not skip it —
the value is defaulted to 0, which forces the wind factor and hence the
period's candidate score to 0, so the period can never be selected and the
final prediction is the same as if it had been removed; the scan continues
over the remaining periods in both cases. -/
theorem C8_amended_parse_failures (pt : String → Option GoTime)
    (pn : String → Option ℚ) (loc : String) :
    (∀ p : Period, pt p.StartTime = none →
      periodCandidate pt pn loc p = none) ∧
    (∀ p : Period, pn (firstWord p.WindSpeed) = none →
      ∀ l₁ l₂ : List Period,
        predictRainbow pt pn (l₁ ++ p :: l₂) loc =
          predictRainbow pt pn (l₁ ++ l₂) loc) := by
  constructor
  · intro p h
    unfold periodCandidate
    rw [h]
  · intro p hw l₁ l₂
    have hcand : ∀ u s,
        periodCandidate pt pn loc p = some (u, s) → s = 0 := by
      intro u s h
      unfold periodCandidate at h
      cases hpt : pt p.StartTime with
      | none => rw [hpt] at h; exact absurd h (by simp)
      | some t =>
        rw [hpt] at h
        simp only [] at h
        by_cases hh : t.hour < 6 ∨ t.hour > 20
        · rw [if_pos hh] at h; exact absurd h (by simp)
        · rw [if_neg hh, hw] at h
          norm_num [qAbs, qMax] at h
          exact h.2.symm
    unfold predictRainbow
    rw [List.foldl_append, List.foldl_append, List.foldl_cons]
    have hb1 : 0 ≤ (l₁.foldl (predictStep pt pn loc) (0, none)).1 :=
      foldl_predictStep_nonneg pt pn loc l₁ (0, none) le_rfl
    have hstep :
        predictStep pt pn loc (l₁.foldl (predictStep pt pn loc) (0, none))
          p = l₁.foldl (predictStep pt pn loc) (0, none) := by
      cases hc : periodCandidate pt pn loc p with
      | none => exact predictStep_of_none pt pn loc _ p hc
      | some c =>
        refine predictStep_of_le pt pn loc _ p c.1 c.2 (by rw [hc]) ?_
        have hz : c.2 = 0 := hcand c.1 c.2 (by rw [hc])
        rw [hz]
        exact hb1
    rw [hstep]

/-- C8, witness: a period whose wind speed "gusty wind" fails to parse is
not skipped, yet its presence does not change the final prediction. -/
theorem C8_amended_witness :
    demoParseNum (firstWord "gusty wind") = none ∧
    predictRainbow demoParseTime demoParseNum
        ([] ++ (⟨"T12", 50, 50, "sunny", "gusty wind", "N", 50⟩ : Period) ::
          [(⟨"T13", 50, 50, "sunny", "10 mph", "N", 50⟩ : Period)]) "loc" =
      predictRainbow demoParseTime demoParseNum
        ([] ++ [(⟨"T13", 50, 50, "sunny", "10 mph", "N", 50⟩ : Period)])
        "loc" := by
  refine ⟨by decide, ?_⟩
  exact (C8_amended_parse_failures demoParseTime demoParseNum "loc").2
    ⟨"T12", 50, 50, "sunny", "gusty wind", "N", 50⟩ (by decide) []
    [⟨"T13", 50, 50, "sunny", "10 mph", "N", 50⟩]

/-! ## Bridges from the executable arithmetic helpers to Mathlib forms -/

theorem qAbs_eq (x : ℚ) : qAbs x = |x| := by
  unfold qAbs
  split_ifs with h
  · exact (abs_of_neg h).symm
  · exact (abs_of_nonneg (not_lt.mp h)).symm

theorem qMin_eq (x y : ℚ) : qMin x y = min x y := by
  unfold qMin
  split_ifs with h
  · exact (min_eq_left h).symm
  · exact (min_eq_right (le_of_not_le h)).symm

theorem qMax_eq (x y : ℚ) : qMax x y = max x y := by
  unfold qMax
  split_ifs with h
  · exact (max_eq_left h).symm
  · exact (max_eq_right (le_of_not_le h)).symm

/-! ## Claim C2, amended theorem -/

set_option maxHeartbeats 1000000 in
/-- C2, amended: the clamp exists only on the main.go path — for fields in
their documented ranges (cloud cover, humidity ∈ [0,100], UV index,
visibility, wind speed ≥ 0) every value `calculateRainbowLikelihood`
returns lies in [0, 1].  The part_000 predictor applies no clamp: for
in-range fields its candidate scores lie in [0, 9/4], and the upper end is
attained, so values above 1 are handed to the caller. -/
theorem C2_amended_clamp_main_only (w : WeatherFields)
    (pt : String → Option GoTime) (pn : String → Option ℚ) (loc : String)
    (p : Period)
    (hcl : 0 ≤ w.Clouds ∧ w.Clouds ≤ 100)
    (hhu : 0 ≤ w.Humidity ∧ w.Humidity ≤ 100)
    (huv : 0 ≤ w.UVI) (hvi : 0 ≤ w.Visibility) (hws : 0 ≤ w.WindSpeed)
    (hpp : 0 ≤ p.PopValue ∧ p.PopValue ≤ 100)
    (hcc : 0 ≤ p.CloudCover ∧ p.CloudCover ≤ 100) :
    (∀ x, calculateRainbowLikelihood w = some x → 0 ≤ x ∧ x ≤ 1) ∧
    (∀ t s, periodCandidate pt pn loc p = some (t, s) →
      0 ≤ s ∧ s ≤ 9 / 4) := by
  constructor
  · intro x hx
    unfold calculateRainbowLikelihood at hx
    by_cases hrej : (w.Weather.length = 0 ∨
        (w.Weather.headD ⟨0, ""⟩).id < 200 ∨
        700 ≤ (w.Weather.headD ⟨0, ""⟩).id)
    · rw [if_pos hrej] at hx
      cases hwl : w.Weather with
      | nil => rw [hwl] at hx; exact absurd hx (by simp)
      | cons c cs =>
        rw [hwl] at hx
        simp only [] at hx
        have h0 := Option.some.inj hx
        subst h0
        norm_num
    · rw [if_neg hrej] at hx
      simp only [] at hx
      have hx' := Option.some.inj hx
      subst hx'
      rw [qMin_eq]
      have hcq0 : (0 : ℚ) ≤ (w.Clouds : ℚ) := by exact_mod_cast hcl.1
      have hcq1 : (w.Clouds : ℚ) ≤ 100 := by exact_mod_cast hcl.2
      have hhq0 : (0 : ℚ) ≤ (w.Humidity : ℚ) := by exact_mod_cast hhu.1
      have hhq1 : (w.Humidity : ℚ) ≤ 100 := by exact_mod_cast hhu.2
      have hvq0 : (0 : ℚ) ≤ (w.Visibility : ℚ) := by exact_mod_cast hvi
      have huf0 : 0 ≤ qMin (w.UVI / 10) 1 := by
        rw [qMin_eq]; exact le_min (by positivity) zero_le_one
      have huf1 : qMin (w.UVI / 10) 1 ≤ 1 := by
        rw [qMin_eq]; exact min_le_right _ _
      have hvf0 : 0 ≤ qMin ((w.Visibility : ℚ) / 10000) 1 := by
        rw [qMin_eq]; exact le_min (by positivity) zero_le_one
      have hvf1 : qMin ((w.Visibility : ℚ) / 10000) 1 ≤ 1 := by
        rw [qMin_eq]; exact min_le_right _ _
      have hwm0 : 0 ≤ qMin (w.WindSpeed / 20) 1 := by
        rw [qMin_eq]; exact le_min (by positivity) zero_le_one
      have hwm1 : qMin (w.WindSpeed / 20) 1 ≤ 1 := by
        rw [qMin_eq]; exact min_le_right _ _
      constructor
      · refine le_min ?_ zero_le_one
        split_ifs <;> linarith
      · exact min_le_right _ _
  · intro t s h
    unfold periodCandidate at h
    cases hpt : pt p.StartTime with
    | none => rw [hpt] at h; exact absurd h (by simp)
    | some t0 =>
      rw [hpt] at h
      simp only [] at h
      by_cases hh : t0.hour < 6 ∨ t0.hour > 20
      · rw [if_pos hh] at h; exact absurd h (by simp)
      · rw [if_neg hh] at h
        injection h with hpair
        injection hpair with hteq hseq
        subst hseq
        simp only [qAbs_eq, qMax_eq]
        have hccq0 : (0 : ℚ) ≤ (p.CloudCover : ℚ) := by exact_mod_cast hcc.1
        have hccq1 : (p.CloudCover : ℚ) ≤ 100 := by exact_mod_cast hcc.2
        have hpe : 0 ≤ p.PopValue * (100 - p.PopValue) / 2500 ∧
            p.PopValue * (100 - p.PopValue) / 2500 ≤ 1 := by
          constructor
          · exact div_nonneg
              (mul_nonneg hpp.1 (by linarith [hpp.2])) (by norm_num)
          · nlinarith [sq_nonneg (p.PopValue - 50)]
        have hcf : 0 ≤ 1 - |(p.CloudCover : ℚ) - 50| / 50 ∧
            1 - |(p.CloudCover : ℚ) - 50| / 50 ≤ 1 := by
          constructor
          · have : |(p.CloudCover : ℚ) - 50| ≤ 50 :=
              abs_le.mpr ⟨by linarith, by linarith⟩
            linarith
          · have := abs_nonneg ((p.CloudCover : ℚ) - 50)
            linarith
        have hwf : 0 ≤ max (1 - |(pn (firstWord p.WindSpeed)).getD 0 - 10| / 10) 0 ∧
            max (1 - |(pn (firstWord p.WindSpeed)).getD 0 - 10| / 10) 0 ≤ 1 := by
          refine ⟨le_max_right _ _, max_le ?_ zero_le_one⟩
          have := abs_nonneg ((pn (firstWord p.WindSpeed)).getD 0 - 10)
          linarith
        have h2 : 0 ≤ p.PopValue * (100 - p.PopValue) / 2500 *
              (1 - |(p.CloudCover : ℚ) - 50| / 50) ∧
            p.PopValue * (100 - p.PopValue) / 2500 *
              (1 - |(p.CloudCover : ℚ) - 50| / 50) ≤ 1 :=
          ⟨mul_nonneg hpe.1 hcf.1, mul_le_one₀ hpe.2 hcf.1 hcf.2⟩
        have h3 : 0 ≤ p.PopValue * (100 - p.PopValue) / 2500 *
              (1 - |(p.CloudCover : ℚ) - 50| / 50) *
              max (1 - |(pn (firstWord p.WindSpeed)).getD 0 - 10| / 10) 0 ∧
            p.PopValue * (100 - p.PopValue) / 2500 *
              (1 - |(p.CloudCover : ℚ) - 50| / 50) *
              max (1 - |(pn (firstWord p.WindSpeed)).getD 0 - 10| / 10) 0 ≤ 1 :=
          ⟨mul_nonneg h2.1 hwf.1, mul_le_one₀ h2.2 hwf.1 hwf.2⟩
        split_ifs
        all_goals refine ⟨?_, ?_⟩
        all_goals linarith [h3.1, h3.2]

unseal Nat.gcd Rat.mul Rat.add Rat.sub Rat.inv Rat.ofScientific in
/-- C2, witness: a concrete in-range sample on the main.go path scores
39/40 ∈ [0, 1], and a concrete in-range period on the part_000 path scores
9/4, attaining the unclamped upper bound. -/
theorem C2_amended_witness :
    ((0 : ℤ) ≤ 50 ∧ (50 : ℤ) ≤ 100) ∧ (0 : ℚ) ≤ 5 ∧
    calculateRainbowLikelihood
      ⟨20, 50, [⟨500, "rain"⟩], 50, 5, 10000, 5, 90, 0⟩ = some (39 / 40) ∧
    (0 ≤ (39 : ℚ) / 40 ∧ (39 : ℚ) / 40 ≤ 1) ∧
    periodCandidate demoParseTime demoParseNum "loc"
      ⟨"T16", 50, 50, "rain showers", "10 mph", "E", 50⟩ =
      some (⟨16, 0⟩, 9 / 4) ∧
    (0 ≤ (9 : ℚ) / 4 ∧ (9 : ℚ) / 4 ≤ 9 / 4) := by
  refine ⟨⟨by norm_num, by norm_num⟩, by norm_num, by decide, ?_, by decide, ?_⟩
  · exact (C2_amended_clamp_main_only
      ⟨20, 50, [⟨500, "rain"⟩], 50, 5, 10000, 5, 90, 0⟩
      demoParseTime demoParseNum "loc"
      ⟨"T16", 50, 50, "rain showers", "10 mph", "E", 50⟩
      (by norm_num) (by norm_num) (by norm_num) (by norm_num) (by norm_num)
      (by norm_num) (by norm_num)).1 (39 / 40) (by decide)
  · exact (C2_amended_clamp_main_only
      ⟨20, 50, [⟨500, "rain"⟩], 50, 5, 10000, 5, 90, 0⟩
      demoParseTime demoParseNum "loc"
      ⟨"T16", 50, 50, "rain showers", "10 mph", "E", 50⟩
      (by norm_num) (by norm_num) (by norm_num) (by norm_num) (by norm_num)
      (by norm_num) (by norm_num)).2 ⟨16, 0⟩ (9 / 4) (by decide)

/-! ## Claim C4, amended theorem -/

/-- In part_000's scorer no eligibility filter zeroes the score: any
period whose timestamp parses to an in-window hour, whose cloud cover lies
strictly between 96 and 100, whose temperature is above freezing, whose
precipitation probability is strictly between 0 and 100, and whose wind
speed parses within (0, 20) scores strictly positive — regardless of the
sun angle (which only gates a ×1.5 bonus there). -/
theorem periodCandidate_pos_of_in_range (pt : String → Option GoTime)
    (pn : String → Option ℚ) (loc : String) (p : Period) (t : GoTime)
    (wv : ℚ)
    (ht : pt p.StartTime = some t) (hh : ¬(t.hour < 6 ∨ t.hour > 20))
    (hcc : 96 < p.CloudCover ∧ p.CloudCover < 100)
    (htemp : ¬p.Temperature ≤ 32)
    (hpp : 0 < p.PopValue ∧ p.PopValue < 100)
    (hwv : pn (firstWord p.WindSpeed) = some wv)
    (hwb : |wv - 10| < 10) :
    ∃ s, periodCandidate pt pn loc p = some (t, s) ∧ 0 < s := by
  unfold periodCandidate
  rw [ht]
  simp only []
  rw [if_neg hh, hwv]
  simp only [Option.getD_some]
  refine ⟨_, rfl, ?_⟩
  rw [if_neg htemp]
  simp only [qAbs_eq, qMax_eq]
  have hccq0 : (96 : ℚ) < (p.CloudCover : ℚ) := by exact_mod_cast hcc.1
  have hccq1 : (p.CloudCover : ℚ) < 100 := by exact_mod_cast hcc.2
  have habs : |(p.CloudCover : ℚ) - 50| = (p.CloudCover : ℚ) - 50 :=
    abs_of_pos (by linarith)
  rw [habs]
  have hpe : 0 < p.PopValue * (100 - p.PopValue) / 2500 :=
    div_pos (mul_pos hpp.1 (by linarith [hpp.2])) (by norm_num)
  have hcf : 0 < 1 - ((p.CloudCover : ℚ) - 50) / 50 := by linarith
  have hwfpos : 0 < max (1 - |wv - 10| / 10) 0 :=
    lt_max_iff.mpr (Or.inl (by linarith))
  have h3 : 0 < p.PopValue * (100 - p.PopValue) / 2500 *
      (1 - ((p.CloudCover : ℚ) - 50) / 50) *
      max (1 - |wv - 10| / 10) 0 :=
    mul_pos (mul_pos hpe hcf) hwfpos
  split_ifs
  all_goals linarith [h3]

/-- C4, amended: the claimed eligibility filters exist only in the
variant embedded in src/index.html: its predictRainbow skips —
contributing no candidate at all, short-circuiting the remaining score
computation — every period whose sun angle falls outside [0°, 42°] or
whose cloud cover exceeds 96%.  The part_000 scorer cited by the claim
has no such filters: an in-window period with cloud cover strictly
between 96 and 100, temperature above freezing, precipitation
probability strictly between 0 and 100 and wind speed parsing within
(0, 20) scores strictly positive there, regardless of the sun angle. -/
theorem C4_amended_filters_only_in_embedded_variant
    (ptm : String → Option GoTimeM) (pt : String → Option GoTime)
    (pn : String → Option ℚ) (loc : String) (lat lon : ℚ)
    (p q : Period) (t : GoTimeM) (u : GoTime) (wv : ℚ) :
    (ptm p.StartTime = some t →
      calculateSunAngleIdx t lat lon < 0 ∨
        42 < calculateSunAngleIdx t lat lon ∨ 96 < p.CloudCover →
      periodCandidateIdx ptm lat lon p = none) ∧
    (pt q.StartTime = some u → ¬(u.hour < 6 ∨ u.hour > 20) →
      96 < q.CloudCover ∧ q.CloudCover < 100 →
      ¬q.Temperature ≤ 32 →
      0 < q.PopValue ∧ q.PopValue < 100 →
      pn (firstWord q.WindSpeed) = some wv →
      |wv - 10| < 10 →
      ∃ s, periodCandidate pt pn loc q = some (u, s) ∧ 0 < s) := by
  constructor
  · intro hpt hfil
    unfold periodCandidateIdx
    rw [hpt]
    simp only []
    by_cases h1 : calculateSunAngleIdx t lat lon < 0 ∨
        calculateSunAngleIdx t lat lon > 42
    · rw [if_pos h1]
    · rw [if_neg h1]
      have hcc : 96 < p.CloudCover := by
        rcases hfil with h | h | h
        · exact absurd (Or.inl h) h1
        · exact absurd (Or.inr h) h1
        · exact h
      rw [if_pos hcc]
  · intro hq hh hcc htemp hpp hwv hwb
    exact periodCandidate_pos_of_in_range pt pn loc q u wv hq hh hcc htemp
      hpp hwv hwb

unseal Nat.gcd Rat.mul Rat.add Rat.sub Rat.inv Rat.ofScientific in
/-- C4, witness: at 12:00 the sun-angle formula gives 90° (outside the
band) and the cloud cover 97 also trips the embedded variant's second
filter, so that variant skips the period entirely, while the identical
period still scores strictly positive in part_000. -/
theorem C4_amended_filters_witness :
    demoParseTimeM "T12" = some ⟨12, 0, 6⟩ ∧
    (calculateSunAngleIdx ⟨12, 0, 6⟩ 0 0 < 0 ∨
      42 < calculateSunAngleIdx ⟨12, 0, 6⟩ 0 0 ∨
      96 < (⟨"T12", 50, 50, "sunny", "10 mph", "N", 97⟩ : Period).CloudCover) ∧
    periodCandidateIdx demoParseTimeM 0 0
      ⟨"T12", 50, 50, "sunny", "10 mph", "N", 97⟩ = none ∧
    demoParseTime "T12" = some ⟨12, 0⟩ ∧
    ¬((12 : ℤ) < 6 ∨ (12 : ℤ) > 20) ∧
    (∃ s, periodCandidate demoParseTime demoParseNum "39.5, -105.0"
      ⟨"T12", 50, 50, "sunny", "10 mph", "N", 97⟩ = some (⟨12, 0⟩, s) ∧
      0 < s) := by
  have h := C4_amended_filters_only_in_embedded_variant demoParseTimeM
    demoParseTime demoParseNum "39.5, -105.0" 0 0
    ⟨"T12", 50, 50, "sunny", "10 mph", "N", 97⟩
    ⟨"T12", 50, 50, "sunny", "10 mph", "N", 97⟩ ⟨12, 0, 6⟩ ⟨12, 0⟩ 10
  refine ⟨by decide, ?_, ?_, by decide, by decide, ?_⟩
  · right
    left
    decide
  · exact h.1 (by decide) (by right; left; decide)
  · exact h.2 (by decide) (by decide) (by norm_num) (by norm_num)
      (by norm_num) (by decide) (by norm_num)
/-! ## Claim C6: the heatmap grid enumeration and circular mask -/

theorem mem_loopValsF {res : ℚ} (hres : 0 < res) :
    ∀ (n : ℕ) (r v x : ℚ), (r - v) / res < (n : ℚ) →
      (x ∈ loopValsF n r res v ↔
        (∃ i : ℕ, x = v + (i : ℚ) * res) ∧ x ≤ r) := by
  intro n
  induction n with
  | zero =>
    intro r v x hfuel
    push_cast at hfuel
    have hrv : r < v := by
      have h := (div_lt_iff₀ hres).mp hfuel
      rw [zero_mul] at h
      linarith
    constructor
    · intro hx
      exact absurd hx (List.not_mem_nil x)
    · rintro ⟨⟨i, rfl⟩, hle⟩
      have h0 : 0 ≤ (i : ℚ) * res := mul_nonneg (by positivity) hres.le
      linarith
  | succ n ih =>
    intro r v x hfuel
    show x ∈ (if v ≤ r then v :: loopValsF n r res (v + res) else []) ↔ _
    by_cases hvr : v ≤ r
    · rw [if_pos hvr, List.mem_cons]
      have heq : (r - (v + res)) / res = (r - v) / res - 1 := by
        field_simp
        ring
      have hfuel' : (r - (v + res)) / res < (n : ℚ) := by
        rw [heq]
        push_cast at hfuel
        linarith
      rw [ih r (v + res) x hfuel']
      constructor
      · rintro (rfl | ⟨⟨i, rfl⟩, hle⟩)
        · exact ⟨⟨0, by push_cast; ring⟩, hvr⟩
        · exact ⟨⟨i + 1, by push_cast; ring⟩, hle⟩
      · rintro ⟨⟨i, rfl⟩, hle⟩
        cases i with
        | zero => left; push_cast; ring
        | succ j => right; exact ⟨⟨j, by push_cast; ring⟩, hle⟩
    · rw [if_neg hvr]
      push_neg at hvr
      constructor
      · intro hx
        exact absurd hx (List.not_mem_nil x)
      · rintro ⟨⟨i, rfl⟩, hle⟩
        have h0 : 0 ≤ (i : ℚ) * res := mul_nonneg (by positivity) hres.le
        linarith

theorem mem_gridSteps {r res x : ℚ} (hres : 0 < res) :
    x ∈ gridSteps r res ↔
      (∃ i : ℕ, x = -r + (i : ℚ) * res) ∧ x ≤ r := by
  unfold gridSteps
  have hfuel : (r - -r) / res < ((gridFuel r res : ℕ) : ℚ) := by
    unfold gridFuel
    have h1 : 2 * r / res < (⌊2 * r / res⌋ : ℚ) + 1 := Int.lt_floor_add_one _
    have h2 : ((⌊2 * r / res⌋ + 2 : ℤ) : ℚ) ≤
        (((⌊2 * r / res⌋ + 2).toNat : ℤ) : ℚ) := by
      exact_mod_cast Int.self_le_toNat _
    have h3 : r - -r = 2 * r := by ring
    rw [h3]
    push_cast at h2 ⊢
    linarith
  exact mem_loopValsF hres (gridFuel r res) r (-r) x hfuel

theorem mem_gridOffsets (radiusDegrees res dlat dlon : ℚ) :
    (dlat, dlon) ∈ gridOffsets radiusDegrees res ↔
      dlat ∈ gridSteps radiusDegrees res ∧
      dlon ∈ gridSteps radiusDegrees res ∧
      dlat * dlat + dlon * dlon ≤ radiusDegrees * radiusDegrees := by
  unfold gridOffsets
  rw [List.mem_flatMap]
  constructor
  · rintro ⟨a, ha, hmem⟩
    rw [List.mem_filterMap] at hmem
    obtain ⟨b, hb, hfb⟩ := hmem
    by_cases hmask : a * a + b * b ≤ radiusDegrees * radiusDegrees
    · rw [if_pos hmask] at hfb
      obtain ⟨h1, h2⟩ := Prod.mk.inj (Option.some.inj hfb)
      subst h1
      subst h2
      exact ⟨ha, hb, hmask⟩
    · rw [if_neg hmask] at hfb
      exact absurd hfb (by simp)
  · rintro ⟨ha, hb, hmask⟩
    refine ⟨dlat, ha, ?_⟩
    rw [List.mem_filterMap]
    exact ⟨dlon, hb, by rw [if_pos hmask]⟩

theorem mask_iff_sqrt (a b rd : ℚ) (hrd : 0 ≤ rd) :
    a * a + b * b ≤ rd * rd ↔
      Real.sqrt ((a : ℝ) ^ 2 + (b : ℝ) ^ 2) ≤ (rd : ℝ) := by
  have hcast : ((a * a + b * b : ℚ) : ℝ) = (a : ℝ) ^ 2 + (b : ℝ) ^ 2 := by
    push_cast
    ring
  have hs : (0 : ℝ) ≤ (a : ℝ) ^ 2 + (b : ℝ) ^ 2 := by positivity
  have hrd' : (0 : ℝ) ≤ (rd : ℝ) := by exact_mod_cast hrd
  constructor
  · intro h
    have h' : (a : ℝ) ^ 2 + (b : ℝ) ^ 2 ≤ (rd : ℝ) ^ 2 := by
      have hq : ((a * a + b * b : ℚ) : ℝ) ≤ ((rd * rd : ℚ) : ℝ) := by
        exact_mod_cast h
      rw [hcast] at hq
      calc (a : ℝ) ^ 2 + (b : ℝ) ^ 2 ≤ ((rd * rd : ℚ) : ℝ) := hq
        _ = (rd : ℝ) ^ 2 := by push_cast; ring
    calc Real.sqrt ((a : ℝ) ^ 2 + (b : ℝ) ^ 2)
        ≤ Real.sqrt ((rd : ℝ) ^ 2) := Real.sqrt_le_sqrt h'
      _ = (rd : ℝ) := Real.sqrt_sq hrd'
  · intro h
    have h1 : (a : ℝ) ^ 2 + (b : ℝ) ^ 2 ≤ (rd : ℝ) ^ 2 := by
      calc (a : ℝ) ^ 2 + (b : ℝ) ^ 2
          = Real.sqrt ((a : ℝ) ^ 2 + (b : ℝ) ^ 2) ^ 2 := (Real.sq_sqrt hs).symm
        _ ≤ (rd : ℝ) ^ 2 := pow_le_pow_left₀ (Real.sqrt_nonneg _) h 2
    have h2 : ((a * a + b * b : ℚ) : ℝ) ≤ ((rd * rd : ℚ) : ℝ) := by
      rw [hcast]
      calc (a : ℝ) ^ 2 + (b : ℝ) ^ 2 ≤ (rd : ℝ) ^ 2 := h1
        _ = ((rd * rd : ℚ) : ℝ) := by push_cast; ring
    exact_mod_cast h2

/-- C6: with a positive grid step and non-negative radius, an offset pair
is kept for the heatmap exactly when both coordinates lie on the lattice
`-radius/69 + k·resolution` within the square `[-radius/69, radius/69]`
and the offset's Euclidean norm is at most `radius/69` — the radius is
converted to degrees as `radius/69` and the circular mask is
boundary-inclusive (`≤`). -/
theorem C6_heatmap_grid_mask (radius res dlat dlon : ℚ)
    (hres : 0 < res) (hrad : 0 ≤ radius) :
    ((dlat, dlon) ∈ gridOffsets (radius / 69) res ↔
      (∃ i : ℕ, dlat = -(radius / 69) + (i : ℚ) * res) ∧
      dlat ≤ radius / 69 ∧
      (∃ j : ℕ, dlon = -(radius / 69) + (j : ℚ) * res) ∧
      dlon ≤ radius / 69 ∧
      Real.sqrt ((dlat : ℝ) ^ 2 + (dlon : ℝ) ^ 2) ≤ (radius : ℝ) / 69) := by
  have hrd : (0 : ℚ) ≤ radius / 69 := by positivity
  rw [mem_gridOffsets, mem_gridSteps hres, mem_gridSteps hres,
    mask_iff_sqrt dlat dlon (radius / 69) hrd]
  have hcast : ((radius / 69 : ℚ) : ℝ) = (radius : ℝ) / 69 := by
    push_cast
    ring
  rw [hcast]
  tauto

/-- C6, witness: with radius 69 (one degree) and resolution 1, the offset
(0, 1) sits at Euclidean distance exactly the radius in degrees and the
characterization applies to it. -/
theorem C6_heatmap_grid_mask_witness :
    (0 : ℚ) < 1 ∧ (0 : ℚ) ≤ 69 ∧
    (((0 : ℚ), (1 : ℚ)) ∈ gridOffsets (69 / 69) 1 ↔
      (∃ i : ℕ, (0 : ℚ) = -(69 / 69) + (i : ℚ) * 1) ∧
      (0 : ℚ) ≤ 69 / 69 ∧
      (∃ j : ℕ, (1 : ℚ) = -(69 / 69) + (j : ℚ) * 1) ∧
      (1 : ℚ) ≤ 69 / 69 ∧
      Real.sqrt (((0 : ℚ) : ℝ) ^ 2 + ((1 : ℚ) : ℝ) ^ 2) ≤ ((69 : ℚ) : ℝ) / 69) :=
  ⟨by norm_num, by norm_num,
    C6_heatmap_grid_mask 69 1 0 1 (by norm_num) (by norm_num)⟩

/-! ## Claim C7: per-point fetch failures are absorbed by the heatmap -/

theorem heatmapStep_some (lat lon : ℚ)
    (fetch : ℚ → ℚ → Option CurrentWeather) (pts : List HeatmapData)
    (d : ℚ × ℚ) :
    heatmapStep lat lon fetch (some pts) d =
      match fetch (lat + d.1) (lon + d.2) with
      | none => some pts
      | some wd =>
        match calculateRainbowLikelihood (currentToFields wd) with
        | none => none
        | some l => some (pts ++ [⟨lat + d.1, lon + d.2, l⟩]) := rfl

theorem calc_some_of_ne_nil (w : WeatherFields) (hw : w.Weather ≠ []) :
    ∃ y, calculateRainbowLikelihood w = some y := by
  unfold calculateRainbowLikelihood
  by_cases h : (w.Weather.length = 0 ∨
      (w.Weather.headD ⟨0, ""⟩).id < 200 ∨
      700 ≤ (w.Weather.headD ⟨0, ""⟩).id)
  · rw [if_pos h]
    cases hwl : w.Weather with
    | nil => exact absurd hwl hw
    | cons c cs => exact ⟨0, rfl⟩
  · rw [if_neg h]
    exact ⟨_, rfl⟩

theorem handleHeatmapPoints_eq (lat lon radius : ℚ) (resP : Option ℚ)
    (fetch : ℚ → ℚ → Option CurrentWeather)
    (hw : ∀ x y wd, fetch x y = some wd → wd.Weather ≠ []) :
    handleHeatmapPoints lat lon radius resP fetch =
      some ((gridOffsets (radius / 69) (effectiveResolution resP)).filterMap
        (heatmapPoint lat lon fetch)) := by
  unfold handleHeatmapPoints
  suffices h : ∀ (l : List (ℚ × ℚ)) (acc : List HeatmapData),
      l.foldl (heatmapStep lat lon fetch) (some acc) =
        some (acc ++ l.filterMap (heatmapPoint lat lon fetch)) by
    simpa using
      h (gridOffsets (radius / 69) (effectiveResolution resP)) []
  intro l
  induction l with
  | nil => intro acc; simp
  | cons d lrest ih =>
    intro acc
    rw [List.foldl_cons, heatmapStep_some]
    cases hf : fetch (lat + d.1) (lon + d.2) with
    | none =>
      have hpt : heatmapPoint lat lon fetch d = none := by
        unfold heatmapPoint
        rw [hf]
        rfl
      simp only [List.filterMap_cons, hpt, ih acc]
    | some wd =>
      obtain ⟨y, hy⟩ := calc_some_of_ne_nil (currentToFields wd)
        (hw (lat + d.1) (lon + d.2) wd hf)
      have hpt : heatmapPoint lat lon fetch d =
          some ⟨lat + d.1, lon + d.2, y⟩ := by
        unfold heatmapPoint
        rw [hf]
        simp [hy]
      simp only [hy, List.filterMap_cons, hpt,
        ih (acc ++ [⟨lat + d.1, lon + d.2, y⟩])]
      simp

theorem heatmapPoint_coords (lat lon : ℚ)
    (fetch : ℚ → ℚ → Option CurrentWeather) (d : ℚ × ℚ)
    (pt : HeatmapData) (h : heatmapPoint lat lon fetch d = some pt) :
    pt.lat = lat + d.1 ∧ pt.lon = lon + d.2 := by
  unfold heatmapPoint at h
  cases hf : fetch (lat + d.1) (lon + d.2) with
  | none => rw [hf] at h; exact absurd h (by simp)
  | some wd =>
    rw [hf] at h
    simp only [Option.some_bind] at h
    cases hc : calculateRainbowLikelihood (currentToFields wd) with
    | none => rw [hc] at h; exact absurd h (by simp)
    | some l =>
      rw [hc] at h
      simp only [Option.map_some'] at h
      have hpt := Option.some.inj h
      rw [← hpt]
      exact ⟨rfl, rfl⟩

theorem filterMap_filter {α β : Type} (p : β → Bool) (g : α → Option β) :
    ∀ l : List α, (l.filterMap g).filter p =
      l.filterMap (fun x =>
        match g x with
        | none => none
        | some y => if p y then some y else none) := by
  intro l
  induction l with
  | nil => rfl
  | cons x l ih =>
    cases hg : g x with
    | none => simp only [List.filterMap_cons, hg, ih]
    | some y =>
      by_cases hp : p y
      · simp only [List.filterMap_cons, hg, List.filter_cons, hp, if_pos, ih]
      · simp only [List.filterMap_cons, hg, List.filter_cons, hp, if_neg, ih]
        simp [hp]

theorem filterMap_const_none {α β : Type} :
    ∀ l : List α, l.filterMap (fun _ => (none : Option β)) = [] := by
  intro l
  induction l with
  | nil => rfl
  | cons x l ih => simp only [List.filterMap_cons, ih]

/-- C7: per-point fetch failures are absorbed.  Provided every fetched
sample has a non-empty condition list (so the scorer cannot panic, see
C10) and the grid step is positive, (a) failing the fetch at a single
coordinate `(a, b)` — leaving every other point's answer unchanged —
yields exactly the heatmap of the unmodified oracle with the points at
`(a, b)` filtered out: the request is not aborted and all remaining points
are still processed in enumeration order; and (b) if every fetch fails the
handler still returns an (empty) heatmap rather than a failure. -/
theorem C7_per_point_failures_absorbed (lat lon radius : ℚ)
    (resP : Option ℚ) (fetch : ℚ → ℚ → Option CurrentWeather) (a b : ℚ)
    (hres : 0 < effectiveResolution resP)
    (hw : ∀ x y wd, fetch x y = some wd → wd.Weather ≠ []) :
    handleHeatmapPoints lat lon radius resP
        (fun x y => if x = a ∧ y = b then none else fetch x y) =
      Option.map (List.filter fun h => decide ¬(h.lat = a ∧ h.lon = b))
        (handleHeatmapPoints lat lon radius resP fetch) ∧
    handleHeatmapPoints lat lon radius resP (fun _ _ => none) = some [] := by
  constructor
  · have hw' : ∀ x y wd,
        (fun x y => if x = a ∧ y = b then none else fetch x y) x y =
          some wd → wd.Weather ≠ [] := by
      intro x y wd hxy
      simp only [] at hxy
      by_cases hab : x = a ∧ y = b
      · rw [if_pos hab] at hxy
        exact absurd hxy (by simp)
      · rw [if_neg hab] at hxy
        exact hw x y wd hxy
    rw [handleHeatmapPoints_eq lat lon radius resP _ hw',
      handleHeatmapPoints_eq lat lon radius resP fetch hw,
      Option.map_some', filterMap_filter]
    refine congrArg some (List.filterMap_congr ?_)
    intro d _
    by_cases hab : lat + d.1 = a ∧ lon + d.2 = b
    · have hfe : (fun x y => if x = a ∧ y = b then none else fetch x y)
          (lat + d.1) (lon + d.2) = none := by
        show (if lat + d.1 = a ∧ lon + d.2 = b then none
          else fetch (lat + d.1) (lon + d.2)) = none
        rw [if_pos hab]
      have hg' : heatmapPoint lat lon
          (fun x y => if x = a ∧ y = b then none else fetch x y) d = none := by
        unfold heatmapPoint
        rw [hfe]
        rfl
      rw [hg']
      cases hgd : heatmapPoint lat lon fetch d with
      | none => rfl
      | some pt =>
        obtain ⟨h1, h2⟩ := heatmapPoint_coords lat lon fetch d pt hgd
        have hpt : (pt.lat = a ∧ pt.lon = b) := by
          rw [h1, h2]
          exact hab
        simp [hpt]
    · have hfe : (fun x y => if x = a ∧ y = b then none else fetch x y)
          (lat + d.1) (lon + d.2) = fetch (lat + d.1) (lon + d.2) := by
        show (if lat + d.1 = a ∧ lon + d.2 = b then none
          else fetch (lat + d.1) (lon + d.2)) = fetch (lat + d.1) (lon + d.2)
        rw [if_neg hab]
      have hg' : heatmapPoint lat lon
          (fun x y => if x = a ∧ y = b then none else fetch x y) d =
          heatmapPoint lat lon fetch d := by
        unfold heatmapPoint
        rw [hfe]
      rw [hg']
      cases hgd : heatmapPoint lat lon fetch d with
      | none => rfl
      | some pt =>
        obtain ⟨h1, h2⟩ := heatmapPoint_coords lat lon fetch d pt hgd
        have hpt : ¬(pt.lat = a ∧ pt.lon = b) := by
          rw [h1, h2]
          exact hab
        simp [hpt]
  · rw [handleHeatmapPoints_eq lat lon radius resP (fun _ _ => none)
      (fun x y wd hxy => absurd hxy (by simp))]
    have hnone : ∀ d : ℚ × ℚ,
        heatmapPoint lat lon (fun _ _ => none) d = none := fun d => rfl
    rw [List.filterMap_congr (fun d _ => hnone d), filterMap_const_none]

/-- C7, witness: on the concrete grid around (0, 0) with radius 69 and
resolution 1, failing the fetch at coordinate (0, 1) only filters that
point out of the heatmap, and the all-failing oracle yields the empty
heatmap rather than an error. -/
theorem C7_per_point_failures_absorbed_witness :
    (0 : ℚ) < effectiveResolution (some 1) ∧
    (∀ (x y : ℚ) (wd : CurrentWeather),
      (fun _ _ => some demoWeather) x y = some wd → wd.Weather ≠ []) ∧
    (handleHeatmapPoints 0 0 69 (some 1)
        (fun x y => if x = 0 ∧ y = 1 then none
          else (fun _ _ => some demoWeather) x y) =
      Option.map (List.filter fun h => decide ¬(h.lat = 0 ∧ h.lon = 1))
        (handleHeatmapPoints 0 0 69 (some 1)
          (fun _ _ => some demoWeather))) ∧
    handleHeatmapPoints 0 0 69 (some 1) (fun _ _ => none) = some [] := by
  have hw : ∀ (x y : ℚ) (wd : CurrentWeather),
      (fun _ _ => some demoWeather) x y = some wd → wd.Weather ≠ [] := by
    intro x y wd hxy
    have hwd : demoWeather = wd := Option.some.inj hxy
    rw [← hwd]
    decide
  have h := C7_per_point_failures_absorbed 0 0 69 (some 1)
    (fun _ _ => some demoWeather) 0 1 (by norm_num [effectiveResolution]) hw
  exact ⟨by norm_num [effectiveResolution], hw, h.1, h.2⟩
